import Mathlib

/-!
Verification of the Voya booking–payment–ticketing core

Shallow embedding of the orchestration engine of `kelenna1/Voya_agent_2`:
the MONEI webhook signature check (`agent/services/monei.py`), the webhook
processor, booking orchestrator, status and retry-payment endpoints
(`agent/views.py`), and the data model (`agent/models.py`).  External
collaborators (the MONEI gateway, the Mistifly GDS, the system clock) are
passed in as explicit inputs; database rows become fields of an explicit
state record.  Machine-level details that the code does not depend on
(Python big integers, string encoding) are modelled by `Int` and `String`.
-/

namespace Voya

/-! ## Payment gateway client: webhook signature verification

Embeds `MoneiService.verify_webhook_signature` (`agent/services/monei.py`,
lines 134–177).  The HMAC-SHA256 primitive is an external pure function and
is taken as a parameter `mac : secret → payload → hex digest`; the structure
around it (header parsing, freshness window, payload assembly, comparison)
is translated from the source.  `hmac.compare_digest` is functionally string
equality (its constant-time execution is a timing property, outside a
functional embedding). -/

/-- Python `s.split(sep)` for a one-character separator (kept structurally
recursive over the character list so that concrete inputs compute). -/
def splitOnChar (sep : Char) (s : String) : List String :=
  (s.data.foldr
    (fun c acc =>
      match acc with
      | [] => [[c]]
      | g :: gs => if c = sep then [] :: g :: gs else (c :: g) :: gs)
    [[]]).map String.mk

/-- Python `int(s)` on a string: optional surrounding whitespace, an optional
sign, then a nonempty run of digits; anything else raises (modelled `none`). -/
def pyInt? (s : String) : Option Int :=
  let t := ((s.data.dropWhile Char.isWhitespace).reverse.dropWhile
    Char.isWhitespace).reverse
  let signed : Bool × List Char :=
    match t with
    | '-' :: rest => (true, rest)
    | '+' :: rest => (false, rest)
    | _ => (false, t)
  if signed.2 ≠ [] ∧ signed.2.all Char.isDigit then
    let n : Int := Int.ofNat (signed.2.foldl (fun a c => a * 10 + (c.toNat - 48)) 0)
    some (if signed.1 then -n else n)
  else
    none

/-- The header-parsing dict comprehension
`{k: v for k, v in [item.split('=') for item in signature_header.split(',')]}`:
each comma-separated item must split on `=` into exactly a pair, otherwise
the unpacking raises (modelled `none`). -/
def parsePairs (header : String) : Option (List (String × String)) :=
  (splitOnChar ',' header).mapM fun item =>
    match splitOnChar '=' item with
    | [k, v] => some (k, v)
    | _ => none

/-- Python `dict(...).get(k)`: with duplicate keys the later entry wins. -/
def dictGet (ps : List (String × String)) (k : String) : Option String :=
  (ps.reverse.find? fun p => p.1 == k).map Prod.snd

/-- Embedding of `MoneiService.verify_webhook_signature(raw_body, signature_header)`.
`mac secret payload` stands for
`hmac.new(secret, payload, sha256).hexdigest()`; `now` is `int(time.time())`.
Every failure path of the Python code (missing secret, malformed header,
missing/empty `t` or `v1`, unparsable timestamp, stale timestamp, digest
mismatch, any exception) returns `false`. -/
def verify_webhook_signature (mac : String → String → String) (secret : String)
    (now : Int) (raw_body : String) (signature_header : String) : Bool :=
  if secret = "" then false
  else
    match parsePairs signature_header with
    | none => false
    | some parts =>
      match dictGet parts "t" with
      | none => false
      | some timestamp =>
        match dictGet parts "v1" with
        | none => false
        | some received_signature =>
          if timestamp = "" ∨ received_signature = "" then false
          else
            match pyInt? timestamp with
            | none => false
            | some ts =>
              if now - ts > 300 then false
              else
                let signed_payload := timestamp ++ "." ++ raw_body
                let expected_signature := mac secret signed_payload
                expected_signature == received_signature

/-! ## Booking record store (`agent/models.py`)

`FlightBooking`, `Payment` and `WebhookLog` rows, restricted to the fields
the orchestration core reads or writes.  Statuses are the string choices of
the Django models.  Timestamps are `Int` seconds. -/

/-- A `FlightBooking` row (`agent/models.py`, lines 76–222). -/
structure Booking where
  booking_id : String
  mistifly_order_id : String
  pnr : String
  airline_pnr : String
  payment_status : String
  payment_intent_id : String
  payment_url : String
  payment_method : String
  transaction_id : String
  paid_at : Option Int
  ticket_status : String
  ticket_numbers : List String
  ticketed_at : Option Int
  total_amount : Int
  currency : String
  contact_email : String
  contact_phone : String
  expires_at : Int
  created_at : Int
  notes : String
deriving DecidableEq, Repr

/-- A `Payment` row (`agent/models.py`, lines 225–270); `monei_payment_id`
carries a uniqueness constraint. -/
structure PaymentRow where
  booking_id : String
  monei_payment_id : String
  monei_transaction_id : String
  amount : Int
  currency : String
  payStatus : String
  payment_method : String
  error_code : String
  error_message : String
  webhook_received_at : Option Int
deriving DecidableEq, Repr

/-- A `WebhookLog` row (`agent/models.py`, lines 273–304). -/
structure WebhookLogRow where
  booking_id : Option String
  event_type : String
  monei_event_id : String
  signature : String
  processed : Bool
  processed_at : Option Int
deriving DecidableEq, Repr

/-- The persisted store: the three tables of the core. -/
structure DBState where
  bookings : List Booking
  payments : List PaymentRow
  logs : List WebhookLogRow
deriving DecidableEq, Repr

/-- Lookup `FlightBooking.objects.get(booking_id=...)` (first row with the id;
`booking_id` is the primary key). -/
def findBooking (st : DBState) (bid : String) : Option Booking :=
  st.bookings.find? fun b => b.booking_id == bid

/-- Model of `booking.save()` on an existing row: replace the row(s) with this
primary key. -/
def saveBooking (st : DBState) (b : Booking) : DBState :=
  { st with bookings := st.bookings.map fun x =>
      if x.booking_id == b.booking_id then b else x }

/-- Predicate `FlightBooking.is_expired` (`agent/models.py`, lines 189–191):
`timezone.now() > self.expires_at`. -/
def is_expired (now : Int) (b : Booking) : Bool :=
  now > b.expires_at

/-- Predicate `FlightBooking.can_be_paid` (`agent/models.py`, lines 193–198). -/
def can_be_paid (now : Int) (b : Booking) : Bool :=
  b.payment_status == "PENDING" && !(is_expired now b)

/-- Method `FlightBooking.mark_as_paid` (`agent/models.py`, lines 200–207); the
`if payment_method:` guard is Python truthiness on the string. -/
def mark_as_paid (now : Int) (b : Booking) (txn pm : String) : Booking :=
  { b with
      payment_status := "PAID"
      transaction_id := txn
      paid_at := some now
      payment_method := if pm ≠ "" then pm else b.payment_method }

/-- Method `FlightBooking.mark_as_ticketed` (`agent/models.py`, lines 209–214). -/
def mark_as_ticketed (now : Int) (b : Booking) (nums : List String) : Booking :=
  { b with
      ticket_status := "ISSUED"
      ticket_numbers := nums
      ticketed_at := some now }

/-! ## Webhook processor (`MoneiWebhookView`, `agent/views.py` 1154–1309)

The external facts a delivery depends on — whether the MONEI signature
verified, the parsed payload fields, and the outcome of the Mistifly
`issue_ticket` call — are inputs of the step function. -/

/-- Outcome of `mistifly.issue_ticket` on the success branch: a result dict
or a raised exception. -/
inductive TicketOutcome where
  | ok (ticket_numbers : List String) (airline_pnr : Option String)
  | err (msg : String)
deriving DecidableEq, Repr

/-- One inbound webhook delivery, after raw-body reading: `sigValid` is the
result of `verify_webhook_signature`, the rest are the payload fields the
handler reads (`webhook_data['type']`, `['id']`, `data.orderId`, `data.id`,
`data.paymentMethod.type`, `data.error.{code,message}`). -/
structure Delivery where
  sigValid : Bool
  event_type : String
  event_id : String
  order_id : String
  txn_id : String
  payment_method : String
  error_code : String
  error_message : String
  signature : String
  ticket : TicketOutcome
deriving DecidableEq, Repr

/-- HTTP outcome of `MoneiWebhookView.post`: 403 on bad signature, 200 with
the three distinct bodies otherwise. -/
inductive WebhookResp where
  | forbidden
  | okAlreadyProcessed
  | okBookingNotFound
  | okProcessed
deriving DecidableEq, Repr

/-- Handler `MoneiWebhookView._handle_payment_success` (`agent/views.py` 1240–1280):
mark the booking `PAID`, mark the matching `Payment` rows `SUCCEEDED`, then
attempt ticketing; a ticketing exception only flips the ticket axis to
`FAILED` and records the error in `notes`. -/
def handle_payment_success (now : Int) (st : DBState) (b : Booking)
    (d : Delivery) : DBState :=
  let b1 := mark_as_paid now b d.txn_id d.payment_method
  let st1 := saveBooking st b1
  let st2 := { st1 with payments := st1.payments.map fun p =>
      if p.booking_id == b.booking_id && p.monei_payment_id == d.txn_id then
        { p with
            payStatus := "SUCCEEDED"
            monei_transaction_id := d.txn_id
            payment_method := d.payment_method
            webhook_received_at := some now }
      else p }
  match d.ticket with
  | .ok nums apnr =>
    let b2 := mark_as_ticketed now b1 nums
    let b3 :=
      match apnr with
      | some p => if p ≠ "" then { b2 with airline_pnr := p } else b2
      | none => b2
    saveBooking st2 b3
  | .err msg =>
    let b2 := { b1 with
        ticket_status := "FAILED"
        notes := "PAID BUT TICKET FAILED: " ++ msg }
    saveBooking st2 b2

/-- Handler `MoneiWebhookView._handle_payment_failure` (`agent/views.py` 1282–1297):
unconditionally set `payment_status = FAILED` and update the matching
`Payment` rows. -/
def handle_payment_failure (now : Int) (st : DBState) (b : Booking)
    (d : Delivery) : DBState :=
  let b1 := { b with payment_status := "FAILED" }
  let st1 := saveBooking st b1
  { st1 with payments := st1.payments.map fun p =>
      if p.booking_id == b.booking_id && p.monei_payment_id == d.txn_id then
        { p with
            payStatus := "FAILED"
            error_code := d.error_code
            error_message := d.error_message
            webhook_received_at := some now }
      else p }

/-- Handler `MoneiWebhookView._handle_payment_cancelled` (`agent/views.py`
1299–1309): unconditionally set `payment_status = CANCELLED`. -/
def handle_payment_cancelled (now : Int) (st : DBState) (b : Booking)
    (d : Delivery) : DBState :=
  let b1 := { b with payment_status := "CANCELLED" }
  let st1 := saveBooking st b1
  { st1 with payments := st1.payments.map fun p =>
      if p.booking_id == b.booking_id && p.monei_payment_id == d.txn_id then
        { p with payStatus := "CANCELLED", webhook_received_at := some now }
      else p }

/-- The event-type dispatch of `MoneiWebhookView.post` (`agent/views.py`
1215–1223); unhandled types are logged and change nothing. -/
def dispatchEvent (now : Int) (st : DBState) (b : Booking) (d : Delivery) :
    DBState :=
  if d.event_type == "payment.succeeded" then
    handle_payment_success now st b d
  else if d.event_type == "payment.failed" then
    handle_payment_failure now st b d
  else if d.event_type == "payment.canceled" || d.event_type == "payment.cancelled" then
    handle_payment_cancelled now st b d
  else
    st

/-- The unprocessed `WebhookLog` row created at `agent/views.py` 1207–1213. -/
def mkWebhookLog (d : Delivery) (b : Booking) : WebhookLogRow :=
  { booking_id := some b.booking_id
    event_type := d.event_type
    monei_event_id := d.event_id
    signature := d.signature
    processed := false
    processed_at := none }

/-- Endpoint `MoneiWebhookView.post` (`agent/views.py` 1154–1238): signature
gate, idempotency check on the gateway event id, booking lookup (unknown
order references are acknowledged with 200 and no row is written), audit-log
creation, dispatch, and marking the log processed.  The handlers never touch
the `logs` table, so the final log write is the created entry with
`processed = true`. -/
def webhookPost (now : Int) (st : DBState) (d : Delivery) :
    DBState × WebhookResp :=
  if !d.sigValid then
    (st, .forbidden)
  else if st.logs.any (fun l => l.monei_event_id == d.event_id && l.processed) then
    (st, .okAlreadyProcessed)
  else
    match findBooking st d.order_id with
    | none => (st, .okBookingNotFound)
    | some b =>
      let st1 : DBState := { st with logs := st.logs ++ [mkWebhookLog d b] }
      let st2 := dispatchEvent now st1 b d
      let st3 : DBState := { st2 with
          logs := st.logs ++
            [{ mkWebhookLog d b with processed := true, processed_at := some now }] }
      (st3, .okProcessed)

/-! ## Flight distribution client: revalidation
(`MistiflyService.revalidate_flight`, `agent/services/mistifly.py` 269–319)

The raw itinerary dict is modelled as an opaque record; the
`_post_authenticated` call is an input that either raised or returned a
response, of which the code inspects the keys `Success`, `Data`,
`PricedItinerary` and `AirItineraryPricingInfo`.  Python dict values are
carried together with their truthiness. -/

/-- An itinerary dict, opaque beyond its `TraceId` key. -/
structure Itinerary where
  traceId : Option String
  tag : String
deriving DecidableEq, Repr

/-- A dict that the success path of `revalidate_flight` may treat as
`price_data`: its `PricedItinerary` key, whether `AirItineraryPricingInfo`
is a key, its own reading as an itinerary (for `new_itinerary = price_data`),
and its truthiness. -/
structure PriceData where
  pricedItinerary : Option Itinerary
  hasPricingInfo : Bool
  asItinerary : Itinerary
  truthy : Bool
deriving DecidableEq, Repr

/-- The parsed response of `_post_authenticated("api/v1/Revalidate/Flight")`:
the `Success` key (if present), the `Data` key (if present, with
truthiness), the top-level `PricedItinerary`, and the whole response viewed
as `price_data` when `Data` is absent. -/
structure RevalResponse where
  success : Option Bool
  dataField : Option PriceData
  pricedItin : Option Itinerary
  selfHasPricingInfo : Bool
  selfAsItinerary : Itinerary
deriving DecidableEq, Repr

/-- Result of the external `_post_authenticated` call. -/
inductive ApiResult where
  | raises (msg : String)
  | returns (r : RevalResponse)
deriving DecidableEq, Repr

/-- The `failed` flag computed at `agent/services/mistifly.py` 287–291:
`Success` present and falsy, or both `Data` and `PricedItinerary`
missing/falsy. -/
def revalResponseFailed (r : RevalResponse) : Bool :=
  (match r.success with | some s => !s | none => false)
  || (!(match r.dataField with | some pd => pd.truthy | none => false)
      && !r.pricedItin.isSome)

/-- Service call `MistiflyService.revalidate_flight` (`agent/services/mistifly.py`
269–319).  A response carrying the `failed` flag — and any exception — is
BYPASSED: the original itinerary is returned so the caller proceeds (the
`TraceId` injection at lines 302–303 is vacuous, since `trace_id` was read
from `raw_itinerary` itself).  Only the success path can return `None`
(modelled `none`), when `price_data` has no usable itinerary. -/
def revalidate_flight (raw : Itinerary) (api : ApiResult) : Option Itinerary :=
  match api with
  | .raises _ => some raw
  | .returns r =>
    if revalResponseFailed r then
      some raw
    else
      let price_data : PriceData :=
        match r.dataField with
        | some pd => pd
        | none =>
          { pricedItinerary := r.pricedItin
            hasPricingInfo := r.selfHasPricingInfo
            asItinerary := r.selfAsItinerary
            truthy := true }
      match price_data.pricedItinerary with
      | some it => some it
      | none =>
        if price_data.hasPricingInfo then some price_data.asItinerary else none

/-! ## Booking orchestrator: revalidate → reserve → persist
(`CreateFlightBookingView.post`, `agent/views.py` 846–929)

Steps 3.5–5 of the view, from revalidation up to the creation of the
`FlightBooking` row.  The Mistifly `book_flight` outcome is an input.  If
`revalidate_flight` returns `None`, the price lookup
`bookable_itinerary.get(...)` inside the same `try` raises and the view
answers 400 "no longer available"; `revalidate_flight` itself never
raises. -/

/-- Outcome of the external `mistifly.book_flight` call. -/
inductive BookResult where
  | ok (order_id pnr : String)
  | noOrderId
  | raises (msg : String)
deriving DecidableEq, Repr

/-- Outcome of the modelled fragment of `CreateFlightBookingView.post`. -/
inductive OrchResp where
  | staleOfferError
  | reservationError
  | internalError
  | created (booking_id : String)
deriving DecidableEq, Repr

/-- Trip and contact fields the view copies onto the new row. -/
structure TripInput where
  contact_email : String
  contact_phone : String
  amount : Int
  currency : String
deriving DecidableEq, Repr

/-- Steps 3.5–5 of `CreateFlightBookingView.post`: revalidate (with bypass
semantics), reserve with Mistifly, then persist a `PENDING/NOT_ISSUED`
booking with `expires_at = now + 30 minutes`.  Nothing is persisted on the
failure paths. -/
def orchestrateBooking (now : Int) (st : DBState) (raw : Itinerary)
    (api : ApiResult) (book : BookResult) (bid : String) (trip : TripInput) :
    DBState × OrchResp :=
  match revalidate_flight raw api with
  | none => (st, .staleOfferError)
  | some _bookable =>
    match book with
    | .raises _ => (st, .internalError)
    | .noOrderId => (st, .reservationError)
    | .ok order_id pnr =>
      let b : Booking :=
        { booking_id := bid
          mistifly_order_id := order_id
          pnr := pnr
          airline_pnr := ""
          payment_status := "PENDING"
          payment_intent_id := ""
          payment_url := ""
          payment_method := ""
          transaction_id := ""
          paid_at := none
          ticket_status := "NOT_ISSUED"
          ticket_numbers := []
          ticketed_at := none
          total_amount := trip.amount
          currency := trip.currency
          contact_email := trip.contact_email
          contact_phone := trip.contact_phone
          expires_at := now + 30 * 60
          created_at := now
          notes := "" }
      ({ st with bookings := st.bookings ++ [b] }, .created bid)

/-! ## Status/Retry service (`agent/views.py` 1022–1137) -/

/-- Response of `BookingStatusView.get`. -/
inductive StatusResp where
  | notFound
  | ok (payment_status ticket_status : String) (is_exp can_pay : Bool)
      (payment_url : Option String) (ticket_numbers : List String)
deriving DecidableEq, Repr

/-- Endpoint `BookingStatusView.get` (`agent/views.py` 1028–1067): lazily flip a
`PENDING` booking past `expires_at` to `EXPIRED` and persist it; report the
(possibly updated) states, and the payment URL only while payable. -/
def bookingStatusGet (now : Int) (st : DBState) (bid : String) :
    DBState × StatusResp :=
  match findBooking st bid with
  | none => (st, .notFound)
  | some b =>
    let isExp := is_expired now b
    let expireIt := isExp && b.payment_status == "PENDING"
    let b1 := if expireIt then { b with payment_status := "EXPIRED" } else b
    let st1 := if expireIt then saveBooking st b1 else st
    (st1, .ok b1.payment_status b1.ticket_status isExp (can_be_paid now b1)
      (if can_be_paid now b1 then some b1.payment_url else none)
      b1.ticket_numbers)

/-- Modelled from the spec: the MONEI payment gateway itself is an external
service, absent from `src/`.  Per §4.3 the creation call carries an
idempotency key "so that a network-level retry of the creation call itself
does not create two sessions", and the glossary defines an idempotency key
as guaranteeing the operation's effects are applied at most once; so the
gateway is a store of key → session that returns the stored session for a
repeated key and mints a fresh session only for a new key. -/
structure GatewayState where
  sessions : List (String × String)
  counter : Nat
deriving DecidableEq, Repr

/-- Modelled from the spec: one gateway session creation under an
idempotency key (see `GatewayState`).  Fresh sessions get ids `pay_0`,
`pay_1`, …. -/
def gatewaySession (gw : GatewayState) (key : String) : GatewayState × String :=
  match gw.sessions.find? (fun p => p.1 == key) with
  | some p => (gw, p.2)
  | none =>
    let pid := "pay_" ++ toString gw.counter
    ({ sessions := gw.sessions ++ [(key, pid)], counter := gw.counter + 1 }, pid)

/-- Result dict of `MoneiService.create_payment`. -/
structure PaymentResult where
  payment_id : String
  checkout_url : String
deriving DecidableEq, Repr

/-- Client call `MoneiService.create_payment` (`agent/services/monei.py` 67–129),
reduced to its state-relevant content: the outbound call carries
`Idempotency-Key: order_{booking_id}` (line 110) and yields the gateway's
session id and checkout URL for that key. -/
def create_payment (gw : GatewayState) (booking_id : String) :
    GatewayState × PaymentResult :=
  let key := "order_" ++ booking_id
  let (gw1, pid) := gatewaySession gw key
  (gw1, { payment_id := pid, checkout_url := "https://checkout/" ++ pid })

/-- Insert `Payment.objects.create`: insert, honouring the uniqueness constraint on
`monei_payment_id` (`agent/models.py` line 241); a duplicate raises
(modelled `Except.error`). -/
def paymentCreate (st : DBState) (p : PaymentRow) : Except Unit DBState :=
  if st.payments.any (fun q => q.monei_payment_id == p.monei_payment_id) then
    .error ()
  else
    .ok { st with payments := st.payments ++ [p] }

/-- Response of `RetryPaymentView.post`. -/
inductive RetryResp where
  | notFound
  | notPayable
  | serverError
  | ok (payment_url payment_id : String)
deriving DecidableEq, Repr

/-- Endpoint `RetryPaymentView.post` (`agent/views.py` 1082–1137): reject when
`can_be_paid()` is false; otherwise call `create_payment`, save the new
session id and checkout URL on the booking, and insert a new `Payment` row.
The booking save precedes the `Payment` insert, so a uniqueness violation
there surfaces as a 500 with the booking row already updated. -/
def retry_payment (now : Int) (st : DBState) (gw : GatewayState)
    (bid : String) : DBState × GatewayState × RetryResp :=
  match findBooking st bid with
  | none => (st, gw, .notFound)
  | some b =>
    if !can_be_paid now b then
      (st, gw, .notPayable)
    else
      let (gw1, res) := create_payment gw bid
      let b1 := { b with
          payment_intent_id := res.payment_id
          payment_url := res.checkout_url }
      let st1 := saveBooking st b1
      let row : PaymentRow :=
        { booking_id := b.booking_id
          monei_payment_id := res.payment_id
          monei_transaction_id := ""
          amount := b.total_amount
          currency := b.currency
          payStatus := "PENDING"
          payment_method := ""
          error_code := ""
          error_message := ""
          webhook_received_at := none }
      match paymentCreate st1 row with
      | .ok st2 => (st2, gw1, .ok res.checkout_url res.payment_id)
      | .error _ => (st1, gw1, .serverError)

/-! ## Concrete fixtures used by witnesses and counterexamples -/

/-- A freshly created booking row, as persisted by the orchestrator. -/
def bookingA : Booking :=
  { booking_id := "B1"
    mistifly_order_id := "MF1"
    pnr := "PNR1"
    airline_pnr := ""
    payment_status := "PENDING"
    payment_intent_id := "pay_0"
    payment_url := "https://checkout/pay_0"
    payment_method := ""
    transaction_id := ""
    paid_at := none
    ticket_status := "NOT_ISSUED"
    ticket_numbers := []
    ticketed_at := none
    total_amount := 250
    currency := "USD"
    contact_email := "a@example.com"
    contact_phone := "+100"
    expires_at := 1800
    created_at := 0
    notes := "" }

/-- A store holding just `bookingA`. -/
def stA : DBState := { bookings := [bookingA], payments := [], logs := [] }

/-- The same store with the booking already `PAID`. -/
def stPaid : DBState :=
  { bookings := [{ bookingA with payment_status := "PAID" }]
    payments := []
    logs := [] }

/-- An already-processed audit row for gateway event `ev9`. -/
def logProcessed : WebhookLogRow :=
  { booking_id := some "B1"
    event_type := "payment.failed"
    monei_event_id := "ev9"
    signature := "s"
    processed := true
    processed_at := some 1 }

/-- A store in which event `ev9` was already processed. -/
def stDup : DBState :=
  { bookings := [{ bookingA with payment_status := "PAID" }]
    payments := []
    logs := [logProcessed] }

/-- An empty store. -/
def stEmpty : DBState := { bookings := [], payments := [], logs := [] }

/-- A verified `payment.succeeded` delivery whose ticketing call raises. -/
def dSuccErr : Delivery :=
  { sigValid := true
    event_type := "payment.succeeded"
    event_id := "ev1"
    order_id := "B1"
    txn_id := "pay_0"
    payment_method := "card"
    error_code := ""
    error_message := ""
    signature := "sig"
    ticket := .err "GDS down" }

/-- A verified `payment.failed` delivery with a fresh event id. -/
def dFail : Delivery :=
  { sigValid := true
    event_type := "payment.failed"
    event_id := "ev2"
    order_id := "B1"
    txn_id := "pay_0"
    payment_method := ""
    error_code := "E01"
    error_message := "card declined"
    signature := "sig"
    ticket := .ok [] none }

/-- A verified delivery of an unhandled "authorized/processing" event. -/
def dAuth : Delivery :=
  { sigValid := true
    event_type := "payment.authorized"
    event_id := "ev3"
    order_id := "B1"
    txn_id := "pay_0"
    payment_method := ""
    error_code := ""
    error_message := ""
    signature := "sig"
    ticket := .ok [] none }

/-- A verified delivery whose order reference matches no booking. -/
def dGhost : Delivery :=
  { sigValid := true
    event_type := "payment.succeeded"
    event_id := "ev4"
    order_id := "NOPE"
    txn_id := "x"
    payment_method := ""
    error_code := ""
    error_message := ""
    signature := "sig"
    ticket := .ok [] none }

/-- A redelivery of the already-processed event `ev9`. -/
def dDup : Delivery :=
  { sigValid := true
    event_type := "payment.failed"
    event_id := "ev9"
    order_id := "B1"
    txn_id := "pay_0"
    payment_method := ""
    error_code := "E01"
    error_message := "card declined"
    signature := "sig"
    ticket := .ok [] none }

/-- A verified `payment.succeeded` delivery whose ticketing call succeeds. -/
def dSuccOk : Delivery :=
  { sigValid := true
    event_type := "payment.succeeded"
    event_id := "ev5"
    order_id := "B1"
    txn_id := "pay_0"
    payment_method := "card"
    error_code := ""
    error_message := ""
    signature := "sig"
    ticket := .ok ["TKT1"] (some "APNR") }

/-- A concrete stand-in for the external HMAC-SHA256 hex digest, used only
to instantiate witnesses. -/
def macW (secret payload : String) : String :=
  "H" ++ secret ++ "|" ++ payload

/-- Whether the revalidation attempt failed in the sense of
`revalidate_flight`: the `_post_authenticated` call raised, or its response
carries the `failed` flag of lines 287–291. -/
def revalCallFailed (api : ApiResult) : Bool :=
  match api with
  | .raises _ => true
  | .returns r => revalResponseFailed r

/-- A raw itinerary dict fixture. -/
def itinA : Itinerary := { traceId := some "TR1", tag := "itin" }

/-- A revalidation response that explicitly declines (`Success = false`). -/
def revalDeclined : ApiResult :=
  .returns
    { success := some false
      dataField := none
      pricedItin := none
      selfHasPricingInfo := false
      selfAsItinerary := itinA }

/-- A non-failed revalidation response whose `Data` dict is truthy but holds
no usable priced itinerary, so the success path yields `None`. -/
def revalNoItin : ApiResult :=
  .returns
    { success := some true
      dataField := some
        { pricedItinerary := none
          hasPricingInfo := false
          asItinerary := itinA
          truthy := true }
      pricedItin := none
      selfHasPricingInfo := false
      selfAsItinerary := itinA }

/-- Trip/contact input fixture for the orchestrator. -/
def tripA : TripInput :=
  { contact_email := "a@example.com"
    contact_phone := "+100"
    amount := 250
    currency := "USD" }

/-- The `Payment` row created together with `bookingA`'s first session. -/
def payRow0 : PaymentRow :=
  { booking_id := "B1"
    monei_payment_id := "pay_0"
    monei_transaction_id := ""
    amount := 250
    currency := "USD"
    payStatus := "PENDING"
    payment_method := ""
    error_code := ""
    error_message := ""
    webhook_received_at := none }

/-- A store holding `bookingA` and its existing payment attempt. -/
def stRetry : DBState :=
  { bookings := [bookingA], payments := [payRow0], logs := [] }

/-- A gateway already holding a session for `bookingA`'s idempotency key. -/
def gwR : GatewayState :=
  { sessions := [("order_B1", "pay_0")], counter := 1 }

/-- A gateway with no stored sessions. -/
def gw0 : GatewayState := { sessions := [], counter := 0 }

/-! ## Helper lemmas shared by the claim theorems -/

lemma find?_booking_save (l : List Booking) (b b' : Booking) (bid : String)
    (h : l.find? (fun x => x.booking_id == bid) = some b)
    (hid : b'.booking_id = bid) :
    (l.map fun x => if x.booking_id == b'.booking_id then b' else x).find?
      (fun x => x.booking_id == bid) = some b' := by
  induction l with
  | nil => simp at h
  | cons a t ih =>
    by_cases ha : a.booking_id = bid
    · have hb : (a.booking_id == b'.booking_id) = true := by simp [ha, hid]
      simp only [List.map_cons, hb, if_true]
      exact List.find?_cons_of_pos _ (by simp [hid])
    · have h1 : ¬ ((a.booking_id == bid) = true) := by simp [ha]
      have h2 : (a.booking_id == b'.booking_id) = false := by
        simp only [beq_eq_false_iff_ne, ne_eq, hid]
        exact ha
      rw [List.find?_cons_of_neg (p := fun x : Booking => x.booking_id == bid) _ h1] at h
      simp only [List.map_cons, h2, Bool.false_eq_true, if_false]
      rw [List.find?_cons_of_neg (p := fun x : Booking => x.booking_id == bid) _ h1]
      exact ih h

lemma findBooking_id {st : DBState} {bid : String} {b : Booking}
    (h : findBooking st bid = some b) : b.booking_id = bid := by
  have h' : st.bookings.find? (fun x => x.booking_id == bid) = some b := h
  simpa using List.find?_some h'

lemma findBooking_save {st : DBState} {bid : String} {b : Booking} (b' : Booking)
    (h : findBooking st bid = some b) (hid : b'.booking_id = bid) :
    findBooking (saveBooking st b') bid = some b' :=
  find?_booking_save st.bookings b b' bid h hid

lemma webhookPost_not_verified {now : Int} {st : DBState} {d : Delivery}
    (h : d.sigValid = false) : webhookPost now st d = (st, .forbidden) := by
  simp [webhookPost, h]

lemma webhookPost_duplicate {now : Int} {st : DBState} {d : Delivery}
    (hsig : d.sigValid = true)
    (hdup : st.logs.any (fun l => l.monei_event_id == d.event_id && l.processed)
      = true) :
    webhookPost now st d = (st, .okAlreadyProcessed) := by
  simp [webhookPost, hsig, hdup]

lemma webhookPost_unknown {now : Int} {st : DBState} {d : Delivery}
    (hsig : d.sigValid = true)
    (hdup : st.logs.any (fun l => l.monei_event_id == d.event_id && l.processed)
      = false)
    (hnone : findBooking st d.order_id = none) :
    webhookPost now st d = (st, .okBookingNotFound) := by
  simp [webhookPost, hsig, hdup, hnone]

lemma webhookPost_found {now : Int} {st : DBState} {d : Delivery} {b : Booking}
    (hsig : d.sigValid = true)
    (hdup : st.logs.any (fun l => l.monei_event_id == d.event_id && l.processed)
      = false)
    (hfind : findBooking st d.order_id = some b) :
    webhookPost now st d =
      ({ dispatchEvent now { st with logs := st.logs ++ [mkWebhookLog d b] } b d with
          logs := st.logs ++
            [{ mkWebhookLog d b with processed := true, processed_at := some now }] },
        .okProcessed) := by
  simp [webhookPost, hsig, hdup, hfind]

lemma dispatchEvent_unhandled (now : Int) (st : DBState) (b : Booking)
    {d : Delivery}
    (h1 : d.event_type ≠ "payment.succeeded")
    (h2 : d.event_type ≠ "payment.failed")
    (h3 : d.event_type ≠ "payment.canceled")
    (h4 : d.event_type ≠ "payment.cancelled") :
    dispatchEvent now st b d = st := by
  have e1 : (d.event_type == "payment.succeeded") = false :=
    beq_eq_false_iff_ne.mpr h1
  have e2 : (d.event_type == "payment.failed") = false :=
    beq_eq_false_iff_ne.mpr h2
  have e3 : (d.event_type == "payment.canceled") = false :=
    beq_eq_false_iff_ne.mpr h3
  have e4 : (d.event_type == "payment.cancelled") = false :=
    beq_eq_false_iff_ne.mpr h4
  simp [dispatchEvent, e1, e2, e3, e4]

lemma findBooking_success_err (now : Int) {st : DBState} {b : Booking}
    {d : Delivery} {msg : String} (ht : d.ticket = .err msg)
    (hfind : findBooking st d.order_id = some b) :
    findBooking (handle_payment_success now st b d) d.order_id =
      some { mark_as_paid now b d.txn_id d.payment_method with
              ticket_status := "FAILED"
              notes := "PAID BUT TICKET FAILED: " ++ msg } := by
  have hb : b.booking_id = d.order_id := findBooking_id hfind
  have h1 : findBooking (saveBooking st (mark_as_paid now b d.txn_id d.payment_method))
      d.order_id = some (mark_as_paid now b d.txn_id d.payment_method) :=
    findBooking_save _ hfind hb
  unfold handle_payment_success
  rw [ht]
  exact findBooking_save _ h1 hb

lemma findBooking_handle_failure (now : Int) {st : DBState} {b : Booking}
    {d : Delivery} (hfind : findBooking st d.order_id = some b) :
    findBooking (handle_payment_failure now st b d) d.order_id =
      some { b with payment_status := "FAILED" } := by
  have hb : b.booking_id = d.order_id := findBooking_id hfind
  unfold handle_payment_failure
  exact findBooking_save _ hfind hb

/-! ## Claim theorems -/

/-- C1: on a verified, fresh `payment.succeeded` delivery whose ticket
issuance raises, the webhook handler leaves the booking with
`payment_status = PAID`, `ticket_status = FAILED`, and the error recorded in
`notes` — the ticketing failure never touches the payment axis. -/
theorem C1_ticket_failure_leaves_paid
    (now : Int) (st : DBState) (d : Delivery) (b : Booking) (msg : String)
    (hsig : d.sigValid = true)
    (hdup : st.logs.any (fun l => l.monei_event_id == d.event_id && l.processed)
      = false)
    (hfind : findBooking st d.order_id = some b)
    (htype : d.event_type = "payment.succeeded")
    (htick : d.ticket = .err msg) :
    ∃ b', findBooking (webhookPost now st d).1 d.order_id = some b' ∧
      b'.payment_status = "PAID" ∧ b'.ticket_status = "FAILED" ∧
      b'.notes = "PAID BUT TICKET FAILED: " ++ msg := by
  have hfind1 :
      findBooking { st with logs := st.logs ++ [mkWebhookLog d b] } d.order_id
        = some b := hfind
  have hdis : dispatchEvent now { st with logs := st.logs ++ [mkWebhookLog d b] } b d
      = handle_payment_success now { st with logs := st.logs ++ [mkWebhookLog d b] } b d := by
    simp [dispatchEvent, htype]
  have h2 := findBooking_success_err now htick hfind1
  refine ⟨{ mark_as_paid now b d.txn_id d.payment_method with
      ticket_status := "FAILED"
      notes := "PAID BUT TICKET FAILED: " ++ msg }, ?_, rfl, rfl, rfl⟩
  rw [webhookPost_found hsig hdup hfind]
  show findBooking
    { dispatchEvent now { st with logs := st.logs ++ [mkWebhookLog d b] } b d with
      logs := st.logs ++
        [{ mkWebhookLog d b with processed := true, processed_at := some now }] }
    d.order_id = some _
  rw [hdis]
  exact h2

/-- C1 witness: the property instantiated on the concrete fixture store. -/
theorem C1_witness :
    ∃ b', findBooking (webhookPost 5 stA dSuccErr).1 dSuccErr.order_id = some b' ∧
      b'.payment_status = "PAID" ∧ b'.ticket_status = "FAILED" ∧
      b'.notes = "PAID BUT TICKET FAILED: " ++ "GDS down" :=
  C1_ticket_failure_leaves_paid 5 stA dSuccErr bookingA "GDS down" rfl (by decide)
    (by decide) rfl rfl

/-- C2 (amended): webhook transitions are unconditional overwrites — a
verified `payment.failed` delivery with an unprocessed event id sets
`payment_status = FAILED` regardless of the current state (including
`PAID`); the payment axis is protected only by the event-id idempotency
check, which leaves the store unchanged on redelivery of an
already-processed gateway event id. -/
theorem C2_terminal_states_not_protected :
    (∀ (now : Int) (st : DBState) (d : Delivery) (b : Booking),
      d.sigValid = true →
      st.logs.any (fun l => l.monei_event_id == d.event_id && l.processed)
        = false →
      findBooking st d.order_id = some b →
      d.event_type = "payment.failed" →
      ∃ b', findBooking (webhookPost now st d).1 d.order_id = some b' ∧
        b'.payment_status = "FAILED") ∧
    (∀ (now : Int) (st : DBState) (d : Delivery),
      st.logs.any (fun l => l.monei_event_id == d.event_id && l.processed)
        = true →
      (webhookPost now st d).1 = st) := by
  constructor
  · intro now st d b hsig hdup hfind htype
    have hfind1 :
        findBooking { st with logs := st.logs ++ [mkWebhookLog d b] } d.order_id
          = some b := hfind
    have hdis : dispatchEvent now { st with logs := st.logs ++ [mkWebhookLog d b] } b d
        = handle_payment_failure now { st with logs := st.logs ++ [mkWebhookLog d b] } b d := by
      simp [dispatchEvent, htype]
    have h2 := findBooking_handle_failure now hfind1
    refine ⟨{ b with payment_status := "FAILED" }, ?_, rfl⟩
    rw [webhookPost_found hsig hdup hfind]
    show findBooking
      { dispatchEvent now { st with logs := st.logs ++ [mkWebhookLog d b] } b d with
        logs := st.logs ++
          [{ mkWebhookLog d b with processed := true, processed_at := some now }] }
      d.order_id = some _
    rw [hdis]
    exact h2
  · intro now st d hdup
    cases hsig : d.sigValid with
    | false => rw [webhookPost_not_verified hsig]
    | true => rw [webhookPost_duplicate hsig hdup]

/-- C2 counterexample: a `PAID` booking regresses to `FAILED` on one fresh
`payment.failed` webhook delivery, contradicting the claimed terminal-state
monotonicity. -/
theorem C2_counterexample :
    (findBooking stPaid "B1").map Booking.payment_status = some "PAID" ∧
    (findBooking (webhookPost 10 stPaid dFail).1 "B1").map Booking.payment_status
      = some "FAILED" := by decide

/-- C2 witness: both conjuncts of the amended claim at concrete inputs. -/
theorem C2_witness :
    (∃ b', findBooking (webhookPost 10 stPaid dFail).1 dFail.order_id = some b' ∧
      b'.payment_status = "FAILED") ∧
    (webhookPost 3 stDup dDup).1 = stDup :=
  ⟨C2_terminal_states_not_protected.1 10 stPaid dFail
      { bookingA with payment_status := "PAID" } rfl (by decide) (by decide) rfl,
    C2_terminal_states_not_protected.2 3 stDup dDup (by decide)⟩

/-- C3: a delivery whose gateway event id already has a processed
`WebhookLog` is acknowledged with success and changes nothing; and
processing the same delivery twice leaves exactly the state of processing it
once (idempotence). -/
theorem C3_duplicate_webhook_idempotent :
    (∀ (now : Int) (st : DBState) (d : Delivery),
      d.sigValid = true →
      st.logs.any (fun l => l.monei_event_id == d.event_id && l.processed)
        = true →
      webhookPost now st d = (st, .okAlreadyProcessed)) ∧
    (∀ (now1 now2 : Int) (st : DBState) (d : Delivery),
      (webhookPost now2 (webhookPost now1 st d).1 d).1
        = (webhookPost now1 st d).1) := by
  constructor
  · intro now st d hsig hdup
    exact webhookPost_duplicate hsig hdup
  · intro now1 now2 st d
    cases hsig : d.sigValid with
    | false => simp [webhookPost_not_verified hsig]
    | true =>
      cases hdup : st.logs.any
          (fun l => l.monei_event_id == d.event_id && l.processed) with
      | true => simp [webhookPost_duplicate hsig hdup]
      | false =>
        cases hfind : findBooking st d.order_id with
        | none => simp [webhookPost_unknown hsig hdup hfind]
        | some b =>
          rw [webhookPost_found hsig hdup hfind]
          have hdup2 :
              ({ dispatchEvent now1 { st with logs := st.logs ++ [mkWebhookLog d b] } b d with
                logs := st.logs ++
                  [{ mkWebhookLog d b with processed := true, processed_at := some now1 }] }
                : DBState).logs.any
                (fun l => l.monei_event_id == d.event_id && l.processed) = true := by
            simp [mkWebhookLog]
          simp [webhookPost_duplicate hsig hdup2]

/-- C3 witness: both conjuncts at concrete inputs. -/
theorem C3_witness :
    (webhookPost 4 stDup dDup = (stDup, .okAlreadyProcessed)) ∧
    ((webhookPost 1 (webhookPost 0 stA dSuccOk).1 dSuccOk).1
      = (webhookPost 0 stA dSuccOk).1) :=
  ⟨C3_duplicate_webhook_idempotent.1 4 stDup dDup rfl (by decide),
    C3_duplicate_webhook_idempotent.2 0 1 stA dSuccOk⟩

/-- C6 (amended): a verified delivery whose order reference matches no
booking is acknowledged with 200 success — never a retryable error — but no
`WebhookEvent` row is recorded: the store is left entirely unchanged. -/
theorem C6_unknown_booking_acked_not_recorded
    (now : Int) (st : DBState) (d : Delivery)
    (hsig : d.sigValid = true)
    (hdup : st.logs.any (fun l => l.monei_event_id == d.event_id && l.processed)
      = false)
    (hnone : findBooking st d.order_id = none) :
    webhookPost now st d = (st, .okBookingNotFound) := by
  simp [webhookPost, hsig, hdup, hnone]

/-- C6 counterexample: on an unknown order reference the processor answers
success but the webhook audit table stays empty — no event is recorded, so
the claim's "records the event as a WebhookEvent" fails. -/
theorem C6_counterexample :
    (webhookPost 2 stEmpty dGhost).2 = .okBookingNotFound ∧
    (webhookPost 2 stEmpty dGhost).1.logs = [] := by decide

/-- C6 witness: the amended behaviour at a concrete input. -/
theorem C6_witness :
    webhookPost 2 stEmpty dGhost = (stEmpty, .okBookingNotFound) :=
  C6_unknown_booking_acked_not_recorded 2 stEmpty dGhost rfl (by decide) (by decide)

/-- C9 (amended): a "processing/authorized" event type matches none of the
webhook handlers — the processor records and acknowledges it but leaves all
bookings and payment rows unchanged; the code implements no
`PENDING → PROCESSING` webhook transition. -/
theorem C9_processing_event_unhandled
    (now : Int) (st : DBState) (d : Delivery) (b : Booking)
    (hsig : d.sigValid = true)
    (hdup : st.logs.any (fun l => l.monei_event_id == d.event_id && l.processed)
      = false)
    (hfind : findBooking st d.order_id = some b)
    (h1 : d.event_type ≠ "payment.succeeded")
    (h2 : d.event_type ≠ "payment.failed")
    (h3 : d.event_type ≠ "payment.canceled")
    (h4 : d.event_type ≠ "payment.cancelled") :
    (webhookPost now st d).1.bookings = st.bookings ∧
    (webhookPost now st d).1.payments = st.payments ∧
    (webhookPost now st d).2 = .okProcessed := by
  have hdis := dispatchEvent_unhandled now
    { st with logs := st.logs ++ [mkWebhookLog d b] } b h1 h2 h3 h4
  rw [webhookPost_found hsig hdup hfind, hdis]
  exact ⟨rfl, rfl, rfl⟩

/-- C9 counterexample: a `PENDING` booking stays `PENDING` (and in
particular is not `PROCESSING`) after a verified `payment.authorized`
delivery, refuting the claimed `PENDING → PROCESSING` transition. -/
theorem C9_counterexample :
    (findBooking stA "B1").map Booking.payment_status = some "PENDING" ∧
    (findBooking (webhookPost 7 stA dAuth).1 "B1").map Booking.payment_status
      = some "PENDING" ∧
    (findBooking (webhookPost 7 stA dAuth).1 "B1").map Booking.payment_status
      ≠ some "PROCESSING" := by decide

/-- C9 witness: the amended behaviour at a concrete input. -/
theorem C9_witness :
    (webhookPost 7 stA dAuth).1.bookings = stA.bookings ∧
    (webhookPost 7 stA dAuth).1.payments = stA.payments ∧
    (webhookPost 7 stA dAuth).2 = .okProcessed :=
  C9_processing_event_unhandled 7 stA dAuth bookingA rfl (by decide) (by decide)
    (by decide) (by decide) (by decide) (by decide)

/-- C4: signature verification returns false at every failure mode — a
malformed header (unsplittable items, or missing `t`/`v1` entries), an
unparsable timestamp, a timestamp more than the 300-second freshness window
in the past, and a digest that differs from the HMAC recomputed over the
exact raw bytes `timestamp ++ "." ++ raw_body`; every parse failure is an
ordinary `false`, never a propagating exception (the embedding is a total
function whose exception paths are the `none` branches here).  The
comparison is `hmac.compare_digest`, modelled by its functional content,
string equality. -/
theorem C4_signature_verification_rejects
    (mac : String → String → String) (secret : String) (now : Int)
    (raw_body header : String) :
    (parsePairs header = none →
      verify_webhook_signature mac secret now raw_body header = false) ∧
    (∀ ps, parsePairs header = some ps →
      (dictGet ps "t" = none ∨ dictGet ps "v1" = none) →
      verify_webhook_signature mac secret now raw_body header = false) ∧
    (∀ ps ts sig, parsePairs header = some ps →
      dictGet ps "t" = some ts → dictGet ps "v1" = some sig →
      pyInt? ts = none →
      verify_webhook_signature mac secret now raw_body header = false) ∧
    (∀ ps ts sig n, parsePairs header = some ps →
      dictGet ps "t" = some ts → dictGet ps "v1" = some sig →
      pyInt? ts = some n → now - n > 300 →
      verify_webhook_signature mac secret now raw_body header = false) ∧
    (∀ ps ts sig n, parsePairs header = some ps →
      dictGet ps "t" = some ts → dictGet ps "v1" = some sig →
      pyInt? ts = some n → mac secret (ts ++ "." ++ raw_body) ≠ sig →
      verify_webhook_signature mac secret now raw_body header = false) := by
  by_cases hs : secret = ""
  · exact ⟨fun _ => by simp [verify_webhook_signature, hs],
      fun _ _ _ => by simp [verify_webhook_signature, hs],
      fun _ _ _ _ _ _ _ => by simp [verify_webhook_signature, hs],
      fun _ _ _ _ _ _ _ _ _ => by simp [verify_webhook_signature, hs],
      fun _ _ _ _ _ _ _ _ _ => by simp [verify_webhook_signature, hs]⟩
  refine ⟨?_, ?_, ?_, ?_, ?_⟩
  · intro hp
    simp [verify_webhook_signature, hs, hp]
  · intro ps hp hd
    rcases hd with hd | hd
    · simp [verify_webhook_signature, hs, hp, hd]
    · cases ht : dictGet ps "t" with
      | none => simp [verify_webhook_signature, hs, hp, ht]
      | some ts => simp [verify_webhook_signature, hs, hp, ht, hd]
  · intro ps ts sig hp ht hv hn
    by_cases hemp : ts = "" ∨ sig = ""
    · simp [verify_webhook_signature, hs, hp, ht, hv, hemp]
    · simp [verify_webhook_signature, hs, hp, ht, hv, hemp, hn]
  · intro ps ts sig n hp ht hv hn hstale
    by_cases hemp : ts = "" ∨ sig = ""
    · simp [verify_webhook_signature, hs, hp, ht, hv, hemp]
    · simp [verify_webhook_signature, hs, hp, ht, hv, hemp, hn, hstale]
  · intro ps ts sig n hp ht hv hn hne
    by_cases hemp : ts = "" ∨ sig = ""
    · simp [verify_webhook_signature, hs, hp, ht, hv, hemp]
    · by_cases hstale : now - n > 300
      · simp [verify_webhook_signature, hs, hp, ht, hv, hemp, hn, hstale]
      · simp [verify_webhook_signature, hs, hp, ht, hv, hemp, hn, hstale,
          beq_eq_false_iff_ne, hne]

/-- C4 witness: each rejection mode at a concrete input — an unsplittable
header, a header without `t`/`v1`, a non-numeric timestamp, a stale
timestamp (age 900 s), and a tampered digest on a fresh timestamp. -/
theorem C4_witness :
    (verify_webhook_signature macW "sec" 1000 "body" "nonsense" = false) ∧
    (verify_webhook_signature macW "sec" 1000 "body" "x=1,y=2" = false) ∧
    (verify_webhook_signature macW "sec" 1000 "body" "t=abc,v1=zz" = false) ∧
    (verify_webhook_signature macW "sec" 1000 "body" "t=100,v1=zz" = false) ∧
    (verify_webhook_signature macW "sec" 400 "body" "t=200,v1=wrong" = false) :=
  ⟨(C4_signature_verification_rejects macW "sec" 1000 "body" "nonsense").1
      (by decide),
    (C4_signature_verification_rejects macW "sec" 1000 "body" "x=1,y=2").2.1
      [("x", "1"), ("y", "2")] (by decide) (Or.inl (by decide)),
    (C4_signature_verification_rejects macW "sec" 1000 "body" "t=abc,v1=zz").2.2.1
      [("t", "abc"), ("v1", "zz")] "abc" "zz" (by decide) (by decide) (by decide)
      (by decide),
    (C4_signature_verification_rejects macW "sec" 1000 "body" "t=100,v1=zz").2.2.2.1
      [("t", "100"), ("v1", "zz")] "100" "zz" 100 (by decide) (by decide)
      (by decide) (by decide) (by decide),
    (C4_signature_verification_rejects macW "sec" 400 "body" "t=200,v1=wrong").2.2.2.2
      [("t", "200"), ("v1", "wrong")] "200" "wrong" 200 (by decide) (by decide)
      (by decide) (by decide) (by decide)⟩

/-- C10: the freshness check rejects only timestamps more than 300 seconds
in the past — a header whose (parsable) timestamp is at or beyond the
current clock, arbitrarily far in the future, passes the freshness check,
and with a matching digest verification succeeds. -/
theorem C10_future_timestamps_pass
    (mac : String → String → String) (secret : String) (now : Int)
    (raw_body header ts sig : String) (ps : List (String × String)) (n : Int)
    (hsec : secret ≠ "")
    (hp : parsePairs header = some ps)
    (ht : dictGet ps "t" = some ts)
    (hv : dictGet ps "v1" = some sig)
    (hn : pyInt? ts = some n)
    (hfuture : now ≤ n)
    (hmac : mac secret (ts ++ "." ++ raw_body) = sig)
    (hne : sig ≠ "") :
    verify_webhook_signature mac secret now raw_body header = true := by
  have hts : ts ≠ "" := by
    intro h
    rw [h] at hn
    have : pyInt? "" = none := by decide
    rw [this] at hn
    cases hn
  have hstale : ¬ (now - n > 300) := by omega
  simp [verify_webhook_signature, hsec, hp, ht, hv, hts, hne, hn, hstale, hmac]

/-- C10 witness: with the clock at 0, a header timestamped 999999 (far in
the future) and a matching digest verifies. -/
theorem C10_witness :
    verify_webhook_signature macW "sec" 0 "body"
      "t=999999,v1=Hsec|999999.body" = true :=
  C10_future_timestamps_pass macW "sec" 0 "body" "t=999999,v1=Hsec|999999.body"
    "999999" "Hsec|999999.body" [("t", "999999"), ("v1", "Hsec|999999.body")]
    999999 (by decide) (by decide) (by decide) (by decide) (by decide)
    (by decide) (by decide) (by decide)

/-- C5 (amended): revalidation failures are not terminal — on an explicit
decline, empty data, or a raised exception, `revalidate_flight` returns the
original itinerary (the sandbox bypass) and, with a successful reservation,
the attempt proceeds and a Booking row IS persisted.  The view's stale-offer
error, with nothing persisted, occurs only when `revalidate_flight` yields
no itinerary object at all (a non-failed response with no usable priced
itinerary). -/
theorem C5_revalidation_failure_bypassed :
    (∀ (raw : Itinerary) (api : ApiResult),
      revalCallFailed api = true → revalidate_flight raw api = some raw) ∧
    (∀ (now : Int) (st : DBState) (raw : Itinerary) (api : ApiResult)
        (book : BookResult) (bid : String) (trip : TripInput)
        (oid pnr : String),
      revalCallFailed api = true → book = BookResult.ok oid pnr →
      (orchestrateBooking now st raw api book bid trip).2 = .created bid ∧
      (orchestrateBooking now st raw api book bid trip).1.bookings.length
        = st.bookings.length + 1) ∧
    (∀ (now : Int) (st : DBState) (raw : Itinerary) (api : ApiResult)
        (book : BookResult) (bid : String) (trip : TripInput),
      revalidate_flight raw api = none →
      orchestrateBooking now st raw api book bid trip
        = (st, .staleOfferError)) := by
  have hbypass : ∀ (raw : Itinerary) (api : ApiResult),
      revalCallFailed api = true → revalidate_flight raw api = some raw := by
    intro raw api h
    cases api with
    | raises m => rfl
    | returns r =>
      have hr : revalResponseFailed r = true := by
        simpa [revalCallFailed] using h
      simp [revalidate_flight, hr]
  refine ⟨hbypass, ?_, ?_⟩
  · intro now st raw api book bid trip oid pnr h hbook
    rw [hbook]
    simp [orchestrateBooking, hbypass raw api h]
  · intro now st raw api book bid trip h
    simp [orchestrateBooking, h]

/-- C5 counterexample: a revalidation response that explicitly declines
(`Success = false`) does not terminate the attempt — the orchestrator
proceeds and persists a Booking row, contradicting the claim that a failed
revalidation ends the attempt with a stale-offer error and nothing
persisted. -/
theorem C5_counterexample :
    revalCallFailed revalDeclined = true ∧
    (orchestrateBooking 0 stEmpty itinA revalDeclined
        (.ok "MF9" "PNR9") "B9" tripA).2 = .created "B9" ∧
    (orchestrateBooking 0 stEmpty itinA revalDeclined
        (.ok "MF9" "PNR9") "B9" tripA).1.bookings.length = 1 := by decide

/-- C5 witness: the three amended conjuncts at concrete inputs. -/
theorem C5_witness :
    (revalidate_flight itinA revalDeclined = some itinA) ∧
    ((orchestrateBooking 0 stEmpty itinA revalDeclined
        (.ok "MF9" "PNR9") "B9" tripA).2 = .created "B9" ∧
      (orchestrateBooking 0 stEmpty itinA revalDeclined
        (.ok "MF9" "PNR9") "B9" tripA).1.bookings.length
        = stEmpty.bookings.length + 1) ∧
    (orchestrateBooking 1 stEmpty itinA revalNoItin (.ok "MF8" "PNR8") "B8"
        tripA = (stEmpty, .staleOfferError)) :=
  ⟨C5_revalidation_failure_bypassed.1 itinA revalDeclined (by decide),
    C5_revalidation_failure_bypassed.2.1 0 stEmpty itinA revalDeclined
      (.ok "MF9" "PNR9") "B9" tripA "MF9" "PNR9" (by decide) rfl,
    C5_revalidation_failure_bypassed.2.2 1 stEmpty itinA revalNoItin
      (.ok "MF8" "PNR8") "B8" tripA (by decide)⟩

/-- C7 (amended): the payable gate holds — a non-payable booking (already
`PAID`, `FAILED`, `CANCELLED`, or expired) is rejected with a client error
and nothing changes.  But a retry reuses the idempotency key
`order_{booking_id}` of the original creation call, so when the gateway
already holds a session for that key it returns the SAME session, not a
distinct one (and inserting the duplicate attempt then violates the
session-id uniqueness constraint).  Only when the gateway holds no session
for the key (e.g. the original session creation never succeeded) does retry
mint a fresh session, store the new checkout URL/session id and a new
`Payment` row, leaving reservation and ticket state untouched. -/
theorem C7_retry_payment_reuses_idempotency_key :
    (∀ (now : Int) (st : DBState) (gw : GatewayState) (bid : String)
        (b : Booking),
      findBooking st bid = some b → can_be_paid now b = false →
      retry_payment now st gw bid = (st, gw, .notPayable)) ∧
    (∀ (gw : GatewayState) (bid : String) (p : String × String),
      gw.sessions.find? (fun q => q.1 == "order_" ++ bid) = some p →
      (create_payment gw bid).2.payment_id = p.2 ∧
      (create_payment gw bid).1 = gw) ∧
    (∀ (now : Int) (st : DBState) (gw : GatewayState) (bid : String)
        (b : Booking) (p : String × String),
      findBooking st bid = some b → can_be_paid now b = true →
      gw.sessions.find? (fun q => q.1 == "order_" ++ bid) = some p →
      st.payments.any (fun q => q.monei_payment_id == p.2) = true →
      (retry_payment now st gw bid).2.2 = .serverError) ∧
    (∀ (now : Int) (st : DBState) (gw : GatewayState) (bid : String)
        (b : Booking),
      findBooking st bid = some b → can_be_paid now b = true →
      gw.sessions.find? (fun q => q.1 == "order_" ++ bid) = none →
      st.payments.any
        (fun q => q.monei_payment_id == "pay_" ++ toString gw.counter)
          = false →
      ∃ b', findBooking (retry_payment now st gw bid).1 bid = some b' ∧
        b'.payment_intent_id = "pay_" ++ toString gw.counter ∧
        b'.payment_url = "https://checkout/" ++ ("pay_" ++ toString gw.counter) ∧
        b'.ticket_status = b.ticket_status ∧
        b'.ticket_numbers = b.ticket_numbers ∧
        b'.mistifly_order_id = b.mistifly_order_id ∧
        b'.pnr = b.pnr ∧
        b'.payment_status = b.payment_status ∧
        (retry_payment now st gw bid).1.payments = st.payments ++
          [{ booking_id := b.booking_id
             monei_payment_id := "pay_" ++ toString gw.counter
             monei_transaction_id := ""
             amount := b.total_amount
             currency := b.currency
             payStatus := "PENDING"
             payment_method := ""
             error_code := ""
             error_message := ""
             webhook_received_at := none }] ∧
        (retry_payment now st gw bid).2.2 =
          .ok ("https://checkout/" ++ ("pay_" ++ toString gw.counter))
            ("pay_" ++ toString gw.counter)) := by
  refine ⟨?_, ?_, ?_, ?_⟩
  · intro now st gw bid b hfind hcan
    simp [retry_payment, hfind, hcan]
  · intro gw bid p hsess
    simp [create_payment, gatewaySession, hsess]
  · intro now st gw bid b p hfind hcan hsess hdup
    simp [retry_payment, hfind, hcan, create_payment, gatewaySession, hsess,
      paymentCreate, saveBooking, hdup]
  · intro now st gw bid b hfind hcan hsess hfree
    have hb : b.booking_id = bid := findBooking_id hfind
    have hfb : findBooking
        (saveBooking st
          { b with
              payment_intent_id := "pay_" ++ toString gw.counter
              payment_url := "https://checkout/" ++ ("pay_" ++ toString gw.counter) })
        bid = some
          { b with
              payment_intent_id := "pay_" ++ toString gw.counter
              payment_url := "https://checkout/" ++ ("pay_" ++ toString gw.counter) } :=
      findBooking_save _ hfind hb
    refine ⟨{ b with
        payment_intent_id := "pay_" ++ toString gw.counter
        payment_url := "https://checkout/" ++ ("pay_" ++ toString gw.counter) },
      ?_, rfl, rfl, rfl, rfl, rfl, rfl, rfl, ?_, ?_⟩
    · simp [retry_payment, hfind, hcan, create_payment, gatewaySession, hsess,
        paymentCreate, saveBooking, hfree]
      simpa [saveBooking] using hfb
    · simp [retry_payment, hfind, hcan, create_payment, gatewaySession, hsess,
        paymentCreate, saveBooking, hfree, hb]
    · simp [retry_payment, hfind, hcan, create_payment, gatewaySession, hsess,
        paymentCreate, saveBooking, hfree]

/-- C7 counterexample: a payable `PENDING` booking whose gateway already
holds the session created for its idempotency key — the retry's gateway call
returns the previous session id (`pay_0`, equal to the booking's current
session), not a distinct one, and the retry endpoint errors instead of
producing a fresh payment session. -/
theorem C7_counterexample :
    can_be_paid 0 bookingA = true ∧
    (create_payment gwR "B1").2.payment_id = bookingA.payment_intent_id ∧
    (retry_payment 0 stRetry gwR "B1").2.2 = .serverError := by decide

/-- C7 witness: the four amended conjuncts at concrete inputs. -/
theorem C7_witness :
    (retry_payment 0 stPaid gw0 "B1" = (stPaid, gw0, .notPayable)) ∧
    ((create_payment gwR "B1").2.payment_id = "pay_0" ∧
      (create_payment gwR "B1").1 = gwR) ∧
    ((retry_payment 0 stRetry gwR "B1").2.2 = .serverError) ∧
    (∃ b', findBooking (retry_payment 0 stA gw0 "B1").1 "B1" = some b' ∧
      b'.payment_intent_id = "pay_" ++ toString gw0.counter ∧
      b'.payment_url = "https://checkout/" ++ ("pay_" ++ toString gw0.counter) ∧
      b'.ticket_status = bookingA.ticket_status ∧
      b'.ticket_numbers = bookingA.ticket_numbers ∧
      b'.mistifly_order_id = bookingA.mistifly_order_id ∧
      b'.pnr = bookingA.pnr ∧
      b'.payment_status = bookingA.payment_status ∧
      (retry_payment 0 stA gw0 "B1").1.payments = stA.payments ++
        [{ booking_id := bookingA.booking_id
           monei_payment_id := "pay_" ++ toString gw0.counter
           monei_transaction_id := ""
           amount := bookingA.total_amount
           currency := bookingA.currency
           payStatus := "PENDING"
           payment_method := ""
           error_code := ""
           error_message := ""
           webhook_received_at := none }] ∧
      (retry_payment 0 stA gw0 "B1").2.2 =
        .ok ("https://checkout/" ++ ("pay_" ++ toString gw0.counter))
          ("pay_" ++ toString gw0.counter)) :=
  ⟨C7_retry_payment_reuses_idempotency_key.1 0 stPaid gw0 "B1"
      { bookingA with payment_status := "PAID" } (by decide) (by decide),
    C7_retry_payment_reuses_idempotency_key.2.1 gwR "B1" ("order_B1", "pay_0")
      (by decide),
    C7_retry_payment_reuses_idempotency_key.2.2.1 0 stRetry gwR "B1" bookingA
      ("order_B1", "pay_0") (by decide) (by decide) (by decide) (by decide),
    C7_retry_payment_reuses_idempotency_key.2.2.2 0 stA gw0 "B1" bookingA
      (by decide) (by decide) (by decide) (by decide)⟩

/-- C8: a booking is persisted with `expires_at = created_at + 30 minutes`
and `payment_status = PENDING`; a status query strictly before `expires_at`
on a `PENDING` booking reports `PENDING` and changes nothing, and a query at
any time after `expires_at` reports `EXPIRED` and persists exactly that
one-field observation (the saved row differs only in `payment_status`), with
no other side effect. -/
theorem C8_lazy_expiry
    : (∀ (now : Int) (st : DBState) (raw : Itinerary) (api : ApiResult)
        (book : BookResult) (bid : String) (trip : TripInput)
        (it : Itinerary) (oid pnr : String),
      revalidate_flight raw api = some it → book = BookResult.ok oid pnr →
      ∃ b, (orchestrateBooking now st raw api book bid trip).1.bookings
          = st.bookings ++ [b] ∧
        b.expires_at = b.created_at + 30 * 60 ∧ b.created_at = now ∧
        b.payment_status = "PENDING") ∧
    (∀ (now : Int) (st : DBState) (bid : String) (b : Booking),
      findBooking st bid = some b →
      b.payment_status = "PENDING" → now < b.expires_at →
      bookingStatusGet now st bid
        = (st, .ok "PENDING" b.ticket_status false true
            (some b.payment_url) b.ticket_numbers)) ∧
    (∀ (now : Int) (st : DBState) (bid : String) (b : Booking),
      findBooking st bid = some b →
      b.payment_status = "PENDING" → now > b.expires_at →
      (bookingStatusGet now st bid).1
          = saveBooking st { b with payment_status := "EXPIRED" } ∧
      (bookingStatusGet now st bid).2
          = .ok "EXPIRED" b.ticket_status true false none b.ticket_numbers) := by
  refine ⟨?_, ?_, ?_⟩
  · intro now st raw api book bid trip it oid pnr hreval hbook
    rw [hbook]
    refine ⟨{ booking_id := bid, mistifly_order_id := oid, pnr := pnr,
              airline_pnr := "", payment_status := "PENDING",
              payment_intent_id := "", payment_url := "",
              payment_method := "", transaction_id := "", paid_at := none,
              ticket_status := "NOT_ISSUED", ticket_numbers := [],
              ticketed_at := none, total_amount := trip.amount,
              currency := trip.currency, contact_email := trip.contact_email,
              contact_phone := trip.contact_phone,
              expires_at := now + 30 * 60, created_at := now,
              notes := "" }, ?_, rfl, rfl, rfl⟩
    simp [orchestrateBooking, hreval]
  · intro now st bid b hfind hp hlt
    have hexp : is_expired now b = false := by
      unfold is_expired
      exact decide_eq_false (by omega)
    have hcan : can_be_paid now b = true := by
      simp [can_be_paid, hexp, hp]
    simp [bookingStatusGet, hfind, hexp, hp, hcan]
  · intro now st bid b hfind hp hgt
    have hexp : is_expired now b = true := by
      unfold is_expired
      exact decide_eq_true hgt
    have hcan : can_be_paid now { b with payment_status := "EXPIRED" } = false := by
      simp [can_be_paid]
    simp [bookingStatusGet, hfind, hexp, hp, hcan]

/-- C8 witness: the orchestrator's created row and both status-query cases
on the concrete fixture (created at 0, expiring at 1800; queries at 100 and
2000). -/
theorem C8_witness :
    (∃ b, (orchestrateBooking 0 stEmpty itinA revalDeclined
        (.ok "MF9" "PNR9") "B9" tripA).1.bookings = stEmpty.bookings ++ [b] ∧
      b.expires_at = b.created_at + 30 * 60 ∧ b.created_at = 0 ∧
      b.payment_status = "PENDING") ∧
    (bookingStatusGet 100 stA "B1"
      = (stA, .ok "PENDING" bookingA.ticket_status false true
          (some bookingA.payment_url) bookingA.ticket_numbers)) ∧
    ((bookingStatusGet 2000 stA "B1").1
        = saveBooking stA { bookingA with payment_status := "EXPIRED" } ∧
      (bookingStatusGet 2000 stA "B1").2
        = .ok "EXPIRED" bookingA.ticket_status true false none
            bookingA.ticket_numbers) :=
  ⟨C8_lazy_expiry.1 0 stEmpty itinA revalDeclined (.ok "MF9" "PNR9") "B9"
      tripA itinA "MF9" "PNR9" (by decide) rfl,
    C8_lazy_expiry.2.1 100 stA "B1" bookingA (by decide) rfl (by decide),
    C8_lazy_expiry.2.2 2000 stA "B1" bookingA (by decide) rfl (by decide)⟩

end Voya

/-- Sanity example: a well-formed, fresh, matching header verifies. -/
example :
    Voya.verify_webhook_signature (fun s p => "H" ++ s ++ "|" ++ p) "sec" 100
      "rawbody" "t=100,v1=Hsec|100.rawbody" = true := by decide

/-- Sanity example: a malformed header is rejected. -/
example :
    Voya.verify_webhook_signature (fun s p => "H" ++ s ++ "|" ++ p) "sec" 100
      "rawbody" "nonsense" = false := by decide
